import Mathlib

/-!
Verification of the LANCA-lab WebGL fluid-simulation background.

The repository contains three near-duplicate GPU fluid solvers:
  * the richest variant (second document of `src/assets/js/vortex_bg.js`,
    the IIFE installing `window.initFluidBackground`), which stores signed
    quantities encoded into [0,1] and runs advection, curl, vorticity
    confinement, divergence, a Jacobi pressure solve and gradient
    subtraction each frame; modelled below in namespace `Vortex`;
  * two minimal variants (`src/assets/js/fluid_sim.js` and
    `src/unnamed/part_000`), which store raw signed values and run
    divergence / pressure / gradient subtraction before advection;
    modelled below in namespace `FS`.

Fields are shallow-embedded as total functions `ℤ → ℤ → α` together with
their texel dimensions; `CLAMP_TO_EDGE` sampling clamps indices into
range.  GPU half-float storage is idealised as exact real arithmetic.
All per-texel kernels are translated literally from the fragment-shader
bodies.
-/

noncomputable section

namespace Vortex

/-- Velocity / 2-vector values (the `.xy` channels of a texel). -/
abbrev V2 := ℝ × ℝ

/-- Dye / colour values (the `.rgb` channels of a texel). -/
abbrev V3 := ℝ × ℝ × ℝ

/-- GLSL `vec2 decode(vec2 v) { return v * 2.0 - 1.0; }`
(vortex_bg.js, advect / curl / divergence / vorticity / gradient /
splat shaders). -/
def decode2 (v : V2) : V2 := (v.1 * 2 - 1, v.2 * 2 - 1)

/-- GLSL `vec2 encode(vec2 v) { return v * 0.5 + 0.5; }`. -/
def encode2 (v : V2) : V2 := (v.1 * 0.5 + 0.5, v.2 * 0.5 + 0.5)

/-- GLSL `float decodeScalar(vec4 c) { return (c.r - 0.5) * 2.0; }`. -/
def decodeScalar (c : ℝ) : ℝ := (c - 0.5) * 2

/-- GLSL `vec4 encodeScalar(float v) { return vec4(v * 0.5 + 0.5, ...); }`
(red channel only; the scalar fields live in the red channel). -/
def encodeScalar (v : ℝ) : ℝ := v * 0.5 + 0.5

/-- Scalar form of the storage decode used by the spec:
`decode(c) = c*2 - 1` (identical to `decodeScalar` up to ring laws). -/
def decodeVal (c : ℝ) : ℝ := c * 2 - 1

/-- Scalar form of the storage encode used by the spec:
`encode(v) = v*0.5 + 0.5`. -/
def encodeVal (v : ℝ) : ℝ := v * 0.5 + 0.5

/-- A GPU texture: texel dimensions plus a total lookup function.
Out-of-range indices are given meaning by `Grid.sample` (edge clamping);
`data` itself is the per-fragment output formula extended to all of ℤ². -/
structure Grid (α : Type) where
  w : ℕ
  h : ℕ
  data : ℤ → ℤ → α

/-- Clamp a texel index into `[0, n-1]` (`CLAMP_TO_EDGE`). -/
def clampIdx (n : ℕ) (i : ℤ) : ℤ := max 0 (min ((n : ℤ) - 1) i)

lemma clampIdx_clampIdx (n : ℕ) (i : ℤ) :
    clampIdx n (clampIdx n i) = clampIdx n i := by
  unfold clampIdx
  rcases le_total ((n : ℤ) - 1) i with h | h <;>
    simp [min_def, max_def] <;> omega

/-- Edge-clamped texel fetch (`texture2D` with `NEAREST` filtering at a
texel-offset coordinate). -/
def Grid.sample {α : Type} (g : Grid α) (x y : ℤ) : α :=
  g.data (clampIdx g.w x) (clampIdx g.h y)

/-- The observable content of a texture: what `texture2D` returns at each
texel, with edge clamping applied. -/
def Grid.sampled {α : Type} (g : Grid α) : ℤ → ℤ → α :=
  fun x y => g.sample x y

/-- A freshly created scalar FBO: `texImage2D(..., null)` zero-fills the
storage. -/
def zeroGridS (w h : ℕ) : Grid ℝ := ⟨w, h, fun _ _ => 0⟩

/-- A freshly created 2-channel FBO (zero-filled storage). -/
def zeroGrid2 (w h : ℕ) : Grid V2 := ⟨w, h, fun _ _ => (0, 0)⟩

/-- A freshly created 3-channel FBO (zero-filled storage). -/
def zeroGrid3 (w h : ℕ) : Grid V3 := ⟨w, h, fun _ _ => (0, 0, 0)⟩

@[simp] lemma decode2_encode2 (v : V2) : decode2 (encode2 v) = v := by
  simp only [decode2, encode2, Prod.ext_iff]
  constructor <;> ring

@[simp] lemma decodeScalar_encodeScalar (v : ℝ) :
    decodeScalar (encodeScalar v) = v := by
  simp [decodeScalar, encodeScalar]; ring

/-- The gradient-subtraction kernel of the richest variant
(`gradientSubtractProgram`, vortex_bg.js lines 349-372):
decodes the four pressure neighbours, forms
`grad = vec2(R - L, T - B) * 0.5`, and writes
`encode(decode(velocity) - grad)`. -/
def gradientSubtract (p : Grid ℝ) (v : Grid V2) : Grid V2 :=
  { w := v.w, h := v.h
    data := fun x y =>
      let L := decodeScalar (p.sample (x - 1) y)
      let R := decodeScalar (p.sample (x + 1) y)
      let B := decodeScalar (p.sample x (y - 1))
      let T := decodeScalar (p.sample x (y + 1))
      let grad : V2 := ((R - L) * 0.5, (T - B) * 0.5)
      let vel := decode2 (v.sample x y)
      encode2 (vel.1 - grad.1, vel.2 - grad.2) }

/-- The Jacobi pressure-sweep kernel of the richest variant
(`pressureProgram`, vortex_bg.js lines 325-347):
`pressure = (L + R + B + T - div) * 0.25`, all values stored encoded. -/
def pressureSweep (dv : Grid ℝ) (p : Grid ℝ) : Grid ℝ :=
  { w := p.w, h := p.h
    data := fun x y =>
      let L := decodeScalar (p.sample (x - 1) y)
      let R := decodeScalar (p.sample (x + 1) y)
      let B := decodeScalar (p.sample x (y - 1))
      let T := decodeScalar (p.sample x (y + 1))
      let div := decodeScalar (dv.sample x y)
      encodeScalar ((L + R + B + T - div) * 0.25) }

/-- The pressure loop of `step` (vortex_bg.js lines 672-680): a plain
`for` loop that, each iteration, reads `pressure.read`, writes
`pressure.write` via one `pressureSweep`, then swaps.  The swap is
modelled by feeding the sweep output to the next iteration.  There is no
convergence test: the recursion is driven only by the counter. -/
def pressureLoop : ℕ → Grid ℝ → Grid ℝ → Grid ℝ
  | 0, _, p => p
  | n + 1, dv, p => pressureLoop n dv (pressureSweep dv p)

end Vortex

namespace FS

open Vortex (Grid clampIdx V2)

/-- The gradient-subtraction kernel of the two minimal variants
(`gradientShader`, fluid_sim.js lines 144-161, and
`gradientSubtractShader`, part_000 lines 178-193): raw storage, and
`vel -= vec2(R - L, T - B)` with no 0.5 factor. -/
def gradientSubtract (p : Grid ℝ) (v : Grid V2) : Grid V2 :=
  { w := v.w, h := v.h
    data := fun x y =>
      let L := p.sample (x - 1) y
      let R := p.sample (x + 1) y
      let T := p.sample x (y + 1)
      let B := p.sample x (y - 1)
      let vel := v.sample x y
      (vel.1 - (R - L), vel.2 - (T - B)) }

/-- The Jacobi pressure-sweep kernel of the minimal variants
(`pressureShader`, fluid_sim.js lines 126-142):
`p = (L + R + T + B - div) * 0.25` on raw storage. -/
def pressureSweep (dv : Grid ℝ) (p : Grid ℝ) : Grid ℝ :=
  { w := p.w, h := p.h
    data := fun x y =>
      let L := p.sample (x - 1) y
      let R := p.sample (x + 1) y
      let T := p.sample x (y + 1)
      let B := p.sample x (y - 1)
      let div := dv.sample x y
      (L + R + T + B - div) * 0.25 }

end FS

namespace Vortex

/-- Concrete pressure input for the C1 counterexample: a 3×1 texture
whose red channel stores the (raw) value `x` at column `x`. -/
def pC1 : Grid ℝ := ⟨3, 1, fun x _ => (x : ℝ)⟩

/-- Concrete velocity input for the C1 counterexample: a 3×1 texture
holding the zero vector everywhere. -/
def vC1 : Grid V2 := ⟨3, 1, fun _ _ => (0, 0)⟩

end Vortex

open Vortex

/-- C1 (counterexample).  The claim states that the gradient-subtraction
stage of *every* variant writes `v - 0.5 * (R - L, T - B)`.  In the
minimal variants (`fluid_sim.js` `gradientShader` and part_000
`gradientSubtractShader`) the kernel subtracts the full difference
`(R - L, T - B)`.  At the 3×1 pressure field storing `0, 1, 2` and zero
velocity, texel (1,0) has `L = 0`, `R = 2`, `T = B = 1`; the kernel
writes `(-2, 0)` whereas the claim predicts `(0 - 0.5*(2-0), 0) =
(-1, 0)`. -/
theorem c1_gradient_half_counterexample :
    (FS.gradientSubtract pC1 vC1).data 1 0 ≠
      ((vC1.sample 1 0).1 - 0.5 * (pC1.sample 2 0 - pC1.sample 0 0),
       (vC1.sample 1 0).2 - 0.5 * (pC1.sample 1 1 - pC1.sample 1 (-1))) := by
  simp only [FS.gradientSubtract, Grid.sample, clampIdx, pC1, vC1]
  norm_num [Prod.ext_iff]

/-- C1 (amended).  Gradient subtraction in the richest variant
(vortex_bg.js `gradientSubtractProgram`) decrements the decoded velocity
by exactly half the central pressure difference,
`v' = v - 0.5 * (R - L, T - B)`; in the two minimal variants
(`fluid_sim.js`, part_000) the kernel decrements by the full difference
`(R - L, T - B)`, twice the claimed amount.  `L, R, T, B` are the
edge-clamped pressure samples one texel left/right/above/below. -/
theorem c1_gradient_subtract_spec :
    (∀ (p : Grid ℝ) (v : Grid V2) (x y : ℤ),
      decode2 ((gradientSubtract p v).data x y) =
        ((decode2 (v.sample x y)).1 -
            0.5 * (decodeScalar (p.sample (x + 1) y) -
                   decodeScalar (p.sample (x - 1) y)),
         (decode2 (v.sample x y)).2 -
            0.5 * (decodeScalar (p.sample x (y + 1)) -
                   decodeScalar (p.sample x (y - 1))))) ∧
    (∀ (p : Grid ℝ) (v : Grid V2) (x y : ℤ),
      (FS.gradientSubtract p v).data x y =
        ((v.sample x y).1 - (p.sample (x + 1) y - p.sample (x - 1) y),
         (v.sample x y).2 - (p.sample x (y + 1) - p.sample x (y - 1)))) := by
  constructor
  · intro p v x y
    simp only [gradientSubtract, decode2_encode2, Prod.ext_iff]
    constructor <;> ring
  · intro p v x y
    simp only [FS.gradientSubtract]

/-- C3.  The storage-packing round-trip: for every `v ∈ [-1, 1]`,
`decode(encode(v)) = v` exactly in real arithmetic, where
`encode(v) = v*0.5 + 0.5` and `decode(c) = c*2 - 1` are the functions
every kernel of the richest variant uses on signed quantities (the
`(c - 0.5)*2` form `decodeScalar` used by the scalar kernels is the same
function, witnessed by the second conjunct). -/
theorem c3_encode_decode_roundtrip :
    (∀ v : ℝ, -1 ≤ v → v ≤ 1 → decodeVal (encodeVal v) = v) ∧
    (∀ c : ℝ, decodeScalar c = decodeVal c) := by
  constructor
  · intro v _ _
    simp only [decodeVal, encodeVal]; ring
  · intro c
    simp only [decodeScalar, decodeVal]; ring

/-- C3 (witness): the round-trip evaluated at `v = 1/2`. -/
theorem c3_encode_decode_roundtrip_witness :
    -1 ≤ (1/2 : ℝ) ∧ (1/2 : ℝ) ≤ 1 ∧ decodeVal (encodeVal (1/2)) = (1/2 : ℝ) :=
  ⟨by norm_num, by norm_num,
   c3_encode_decode_roundtrip.1 (1/2) (by norm_num) (by norm_num)⟩

namespace Vortex

lemma pressureLoop_eq_iterate (n : ℕ) (dv p : Grid ℝ) :
    pressureLoop n dv p = (fun q => pressureSweep dv q)^[n] p := by
  induction n generalizing p with
  | zero => rfl
  | succ n ih =>
      rw [Function.iterate_succ_apply]
      exact ih (pressureSweep dv p)

/-- The absolute-curl gradient of the vorticity kernel
(`vorticityProgram`, vortex_bg.js lines 272-303):
`grad = vec2(abs(R) - abs(L), abs(T) - abs(B)) * 0.5` on the decoded
curl samples. -/
def vortGrad (curlG : Grid ℝ) (x y : ℤ) : V2 :=
  ((|decodeScalar (curlG.sample (x + 1) y)| -
    |decodeScalar (curlG.sample (x - 1) y)|) * 0.5,
   (|decodeScalar (curlG.sample x (y + 1))| -
    |decodeScalar (curlG.sample x (y - 1))|) * 0.5)

/-- GLSL `length(grad)`. -/
def vortLen (curlG : Grid ℝ) (x y : ℤ) : ℝ :=
  Real.sqrt ((vortGrad curlG x y).1 ^ 2 + (vortGrad curlG x y).2 ^ 2)

/-- The divisor of `grad /= length(grad) + 1e-5`. -/
def vortDivisor (curlG : Grid ℝ) (x y : ℤ) : ℝ :=
  vortLen curlG x y + 1e-5

/-- The confinement force:
`force = vec2(grad.y, -grad.x) * C * curlStrength` with `grad` the
epsilon-normalised absolute-curl gradient and `C` the decoded centre
curl sample. -/
def vortForce (curlG : Grid ℝ) (cs : ℝ) (x y : ℤ) : V2 :=
  let g : V2 := ((vortGrad curlG x y).1 / vortDivisor curlG x y,
                 (vortGrad curlG x y).2 / vortDivisor curlG x y)
  let C := decodeScalar (curlG.sample x y)
  (g.2 * C * cs, -g.1 * C * cs)

/-- The vorticity-confinement kernel (`vorticityProgram`):
`vel = decode(velocity); vel += dt * force; out = encode(vel)`. -/
def vorticityK (vel : Grid V2) (curlG : Grid ℝ) (cs dt : ℝ) : Grid V2 :=
  { w := vel.w, h := vel.h
    data := fun x y =>
      let v := decode2 (vel.sample x y)
      encode2 (v.1 + dt * (vortForce curlG cs x y).1,
               v.2 + dt * (vortForce curlG cs x y).2) }

/-- The curl kernel (`curlProgram`, vortex_bg.js lines 251-270):
`curl = (R.y - L.y - T.x + B.x) * 0.5` on decoded velocity neighbours,
re-encoded into the red channel. -/
def curlK (vel : Grid V2) : Grid ℝ :=
  { w := vel.w, h := vel.h
    data := fun x y =>
      let L := decode2 (vel.sample (x - 1) y)
      let R := decode2 (vel.sample (x + 1) y)
      let B := decode2 (vel.sample x (y - 1))
      let T := decode2 (vel.sample x (y + 1))
      encodeScalar ((R.2 - L.2 - T.1 + B.1) * 0.5) }

/-- The divergence kernel (`divergenceProgram`, vortex_bg.js lines
305-323): `div = (R.x - L.x + T.y - B.y) * 0.5` on decoded velocity
neighbours, re-encoded. -/
def divergenceK (vel : Grid V2) : Grid ℝ :=
  { w := vel.w, h := vel.h
    data := fun x y =>
      let L := decode2 (vel.sample (x - 1) y)
      let R := decode2 (vel.sample (x + 1) y)
      let B := decode2 (vel.sample x (y - 1))
      let T := decode2 (vel.sample x (y + 1))
      encodeScalar ((R.1 - L.1 + T.2 - B.2) * 0.5) }

end Vortex

/-- C9.  The vorticity-confinement kernel: the normalising divisor
`length(grad) + 1e-5` is strictly positive for every possible input
(`length` is a square root, hence nonnegative, and the epsilon `1e-5`
is strictly positive), so the kernel is total; the force is the
90°-rotated epsilon-normalised gradient of `|curl|` scaled by the local
decoded curl value times `curlStrength`; and the kernel adds `dt * force`
to the decoded velocity at the texel. -/
theorem c9_vorticity_confinement_spec :
    ∀ (vel : Grid V2) (curlG : Grid ℝ) (cs dt : ℝ) (x y : ℤ),
      (0 < vortDivisor curlG x y) ∧
      (vortForce curlG cs x y =
        ((vortGrad curlG x y).2 / vortDivisor curlG x y *
           decodeScalar (curlG.sample x y) * cs,
         -((vortGrad curlG x y).1 / vortDivisor curlG x y) *
           decodeScalar (curlG.sample x y) * cs)) ∧
      (decode2 ((vorticityK vel curlG cs dt).data x y) =
        ((decode2 (vel.sample x y)).1 + dt * (vortForce curlG cs x y).1,
         (decode2 (vel.sample x y)).2 + dt * (vortForce curlG cs x y).2)) := by
  intro vel curlG cs dt x y
  refine ⟨?_, rfl, ?_⟩
  · have h := Real.sqrt_nonneg
      ((vortGrad curlG x y).1 ^ 2 + (vortGrad curlG x y).2 ^ 2)
    unfold vortDivisor vortLen
    nlinarith
  · simp only [vorticityK, decode2_encode2]

namespace Vortex

/-! ### Configuration of the richest variant (vortex_bg.js `config`) -/

def SIM_RESOLUTION : ℕ := 240
def DYE_RESOLUTION : ℕ := 1080
def VELOCITY_DISSIPATION : ℝ := 0.994
def DYE_DISSIPATION : ℝ := 0.9992
def PRESSURE_ITERATIONS : ℕ := 30
def CURL : ℝ := 6.5
def SPLAT_RADIUS : ℝ := 0.03
def SPLAT_FORCE : ℝ := 26
def TIME_STEP : ℝ := 0.01

/-- JavaScript truncation toward zero (used by the `%` operator). -/
def jsTrunc (x : ℝ) : ℤ := if 0 ≤ x then ⌊x⌋ else -⌊-x⌋

/-- The JavaScript `%` operator on numbers:
`a % b = a - b * trunc(a / b)` (sign follows the dividend). -/
def jsMod (a b : ℝ) : ℝ := a - b * jsTrunc (a / b)

/-- Normalised centre of texel `(x, y)` in a `w × h` viewport: the
`vUv` varying produced by the base vertex shader for that fragment. -/
def texelCenter (w h : ℕ) (x y : ℤ) : V2 :=
  (((x : ℝ) + 0.5) / (w : ℝ), ((y : ℝ) + 0.5) / (h : ℝ))

/-- `texture2D` at an arbitrary normalised coordinate: the vortex
variant creates every texture with `NEAREST` filtering and
`CLAMP_TO_EDGE` wrapping, so the fetch reads the edge-clamped texel
containing the coordinate. -/
def Grid.sampleNearest {α : Type} (g : Grid α) (u v : ℝ) : α :=
  g.sample ⌊u * (g.w : ℝ)⌋ ⌊v * (g.h : ℝ)⌋

/-- The advection kernel (`advectProgram`, vortex_bg.js lines 230-249)
applied to the velocity field:
`coord = vUv - dt * decode(velocity) * texelSize;`
`result = texture2D(source, coord) * dissipation` (the dissipation
multiplies the raw stored texel).  `texel` is the `texelSize` uniform,
set once from the velocity grid in `step`. -/
def advectVel (velG : Grid V2) (src : Grid V2) (texel : V2) (dt diss : ℝ) :
    Grid V2 :=
  { w := src.w, h := src.h
    data := fun x y =>
      let uv := texelCenter src.w src.h x y
      let vel := decode2 (velG.sampleNearest uv.1 uv.2)
      let r := src.sampleNearest (uv.1 - dt * vel.1 * texel.1)
                                 (uv.2 - dt * vel.2 * texel.2)
      (r.1 * diss, r.2 * diss) }

/-- The same advection kernel applied to the dye field (rgb channels). -/
def advectDye (velG : Grid V2) (src : Grid V3) (texel : V2) (dt diss : ℝ) :
    Grid V3 :=
  { w := src.w, h := src.h
    data := fun x y =>
      let uv := texelCenter src.w src.h x y
      let vel := decode2 (velG.sampleNearest uv.1 uv.2)
      let r := src.sampleNearest (uv.1 - dt * vel.1 * texel.1)
                                 (uv.2 - dt * vel.2 * texel.2)
      (r.1 * diss, r.2.1 * diss, r.2.2 * diss) }

/-- The radial falloff of the splat kernel (`splatProgram`, vortex_bg.js
lines 374-405): `p = vUv - point; influence = exp(-dot(p, p) / radius)`,
evaluated at the centre of texel `(x, y)` of a `w × h` target. -/
def splatInfluence (w h : ℕ) (point : V2) (radius : ℝ) (x y : ℤ) : ℝ :=
  let uv := texelCenter w h x y
  let px := uv.1 - point.1
  let py := uv.2 - point.2
  Real.exp (-(px * px + py * py) / radius)

/-- The splat kernel in its velocity branch (`isVelocity = true`):
`v = decode(base.xy); v += force * influence; out = encode(v)`. -/
def splatVelGrid (g : Grid V2) (point : V2) (radius : ℝ) (force : V2) :
    Grid V2 :=
  { w := g.w, h := g.h
    data := fun x y =>
      let influence := splatInfluence g.w g.h point radius x y
      let v := decode2 (g.sample x y)
      encode2 (v.1 + force.1 * influence, v.2 + force.2 * influence) }

/-- The splat kernel in its dye branch (`isVelocity = false`):
`dye = base.rgb + color * influence`. -/
def splatDyeGrid (g : Grid V3) (point : V2) (radius : ℝ) (color : V3) :
    Grid V3 :=
  { w := g.w, h := g.h
    data := fun x y =>
      let influence := splatInfluence g.w g.h point radius x y
      let b := g.sample x y
      (b.1 + color.1 * influence,
       b.2.1 + color.2.1 * influence,
       b.2.2 + color.2.2 * influence) }

/-- The single pointer of vortex_bg.js (`pointers[0]`). -/
structure Pointer where
  moved : Bool
  down : Bool
  x : ℝ
  y : ℝ
  dx : ℝ
  dy : ℝ
  color : V3

/-- The mutable state of the richest variant: the five fields, the wall
clock of the last simulated frame, the ribbon phase, the pointer, the
canvas size and the `window.fluidActive` flag. -/
structure VState where
  velocity : Grid V2
  dye : Grid V3
  pressure : Grid ℝ
  divergence : Grid ℝ
  curl : Grid ℝ
  lastTime : ℝ
  ribbonProgress : ℝ
  pointer : Pointer
  canvasW : ℝ
  canvasH : ℝ
  active : Bool

/-- `splat(pointer)` (vortex_bg.js lines 541-550) guarded by the
`p.moved` test of `update`: one velocity splat with the aspect-corrected
force `[deltaX*SPLAT_FORCE/aspect, deltaY*SPLAT_FORCE]`, then one dye
splat with the pointer colour; `moved` is reset to `false`. -/
def pointerDrain (s : VState) : VState :=
  if s.pointer.moved then
    let aspect := s.canvasW / s.canvasH
    let fx := s.pointer.dx * SPLAT_FORCE
    let fy := s.pointer.dy * SPLAT_FORCE
    let point : V2 := (s.pointer.x, s.pointer.y)
    { s with pointer := { s.pointer with moved := false },
             velocity := splatVelGrid s.velocity point SPLAT_RADIUS
                           (fx / aspect, fy),
             dye := splatDyeGrid s.dye point (SPLAT_RADIUS * 1.5)
                      s.pointer.color }
  else s

def ribbonColor : V3 := (0.88, 0.09, 0.56)

/-- `emitRibbon(dt)` (vortex_bg.js lines 588-600): advance the ribbon
phase modulo 1, then perform one velocity splat and one dye splat at the
scripted position. -/
def emitRibbonV (s : VState) (dt : ℝ) : VState :=
  let prog := jsMod (s.ribbonProgress + dt * 0.16) 1
  let x := 0.05 + prog * 0.8
  let y := 0.24 + Real.sin (prog * 2.9) * 0.1
  let angle := 0.35 + Real.sin (prog * 3.4) * 0.25
  let speed := 16 + Real.sin (prog * 1.7) * 4
  let force : V2 := (Real.cos angle * speed, Real.sin angle * speed)
  { s with ribbonProgress := prog,
           velocity := splatVelGrid s.velocity (x, y) SPLAT_RADIUS force,
           dye := splatDyeGrid s.dye (x, y) (SPLAT_RADIUS * 1.5) ribbonColor }

/-- The `dt` computation of `update` (vortex_bg.js lines 707-708):
wall-clock delta, clamped to 0.033 s, rescaled by the fixed
target-timestep factor `TIME_STEP / 0.016`. -/
def vortexDt (now last : ℝ) : ℝ :=
  min 0.033 ((now - last) / 1000) * (TIME_STEP / 0.016)

/-- `step(dt)` (vortex_bg.js lines 609-693).  Each stage reads the
`read` half of its inputs and writes the `write` half of its output,
followed by a `swap()`; the double buffering is modelled by binding each
stage's output and feeding it to the next stage. -/
def stepV (s : VState) (dt : ℝ) : VState :=
  let texel : V2 := (1 / (s.velocity.w : ℝ), 1 / (s.velocity.h : ℝ))
  let vel1 := advectVel s.velocity s.velocity texel dt VELOCITY_DISSIPATION
  let dye1 := advectDye vel1 s.dye texel dt DYE_DISSIPATION
  let curl1 := curlK vel1
  let vel2 := vorticityK vel1 curl1 CURL dt
  let div1 := divergenceK vel2
  let pr1 := pressureLoop PRESSURE_ITERATIONS div1 s.pressure
  let vel3 := gradientSubtract pr1 vel2
  { s with velocity := vel3, dye := dye1, curl := curl1,
           divergence := div1, pressure := pr1 }

/-- `update()` (vortex_bg.js lines 703-721).  The `requestAnimationFrame`
re-registration is external scheduling; the early `return` when
`window.fluidActive` is unset leaves every part of the state untouched —
in particular `lastTime` is only written *after* the guard. -/
def updateV (s : VState) (now : ℝ) : VState :=
  if s.active then
    let dt := vortexDt now s.lastTime
    let s1 := { s with lastTime := now }
    let s2 := pointerDrain s1
    let s3 := emitRibbonV s2 dt
    stepV s3 dt
  else s

/-- `resizeCanvas()` (vortex_bg.js lines 485-502): recompute the device
pixel sizes and rebuild every FBO from scratch (`texImage2D(..., null)`
zero-fills the new storage).  There is no zero-size guard; when
`width = 0` the JavaScript computes `NaN` sim/dye heights which the
WebGL `GLsizei` conversion turns into `0`, matching the `0` that real
division by zero yields here. -/
def resizeCanvasV (s : VState) (clientW clientH dpr : ℝ) : VState :=
  let width := ⌊clientW * min dpr 1.5⌋
  let height := ⌊clientH * min dpr 1.5⌋
  let simH := (⌊(SIM_RESOLUTION : ℝ) * (height : ℝ) / (width : ℝ)⌋).toNat
  let dyeH := (⌊(DYE_RESOLUTION : ℝ) * (height : ℝ) / (width : ℝ)⌋).toNat
  { s with canvasW := (width : ℝ), canvasH := (height : ℝ),
           velocity := zeroGrid2 SIM_RESOLUTION simH,
           pressure := zeroGridS SIM_RESOLUTION simH,
           dye := zeroGrid3 DYE_RESOLUTION dyeH,
           divergence := zeroGridS SIM_RESOLUTION simH,
           curl := zeroGridS SIM_RESOLUTION simH }

end Vortex

namespace FS

/-- The `dt` computation of the minimal variants' `animate` loop
(fluid_sim.js line 407, part_000 line 406): `dt = (t - lastT) * 0.001`,
with no clamp. -/
def fluidSimDt (now last : ℝ) : ℝ := (now - last) * 0.001

end FS

namespace Vortex

lemma stepV_pressure (s : VState) (dt : ℝ) :
    (stepV s dt).pressure =
      pressureLoop PRESSURE_ITERATIONS ((stepV s dt).divergence) s.pressure :=
  rfl

lemma pointerDrain_pressure (s : VState) :
    (pointerDrain s).pressure = s.pressure := by
  unfold pointerDrain
  split <;> rfl

lemma emitRibbonV_pressure (s : VState) (dt : ℝ) :
    (emitRibbonV s dt).pressure = s.pressure := rfl

/-- The five simulation fields of a state. -/
def fieldsOf (s : VState) : Grid V2 × Grid V3 × Grid ℝ × Grid ℝ × Grid ℝ :=
  (s.velocity, s.dye, s.pressure, s.divergence, s.curl)

/-- One random draw of `addRandomSplats` (vortex_bg.js lines 575-586):
the five `Math.random()` outcomes feeding position, colour hue, angle
and speed. -/
structure Draw where
  x : ℝ
  y : ℝ
  hue : ℝ
  angle01 : ℝ
  speed01 : ℝ

/-- `k(n) = (n + h * 6) % 6` of `hsvToRGB` (vortex_bg.js line 536). -/
def hsvK (n hv : ℝ) : ℝ := jsMod (n + hv * 6) 6

/-- `f(n) = v - v*s*max(min(k(n), 4 - k(n), 1), 0)` (vortex_bg.js
line 537). -/
def hsvF (hv sv vv n : ℝ) : ℝ :=
  vv - vv * sv * max (min (hsvK n hv) (min (4 - hsvK n hv) 1)) 0

/-- `hsvToRGB(h, s, v) = [f(5), f(3), f(1)]` (vortex_bg.js lines
535-539). -/
def hsvToRGB (hv sv vv : ℝ) : V3 :=
  (hsvF hv sv vv 5, hsvF hv sv vv 3, hsvF hv sv vv 1)

/-- The force of one random splat:
`angle = Math.random() * Math.PI * 2; speed = 12 + Math.random() * 30;`
`force = [cos(angle) * speed, sin(angle) * speed]`. -/
def drawForce (d : Draw) : V2 :=
  let angle := d.angle01 * Real.pi * 2
  let speed := 12 + d.speed01 * 30
  (Real.cos angle * speed, Real.sin angle * speed)

/-- The dye colour of one random splat:
`hsvToRGB(Math.random(), 0.45, 0.7)` dimmed by `map(c => c * 0.7)`. -/
def drawColor (d : Draw) : V3 :=
  let c := hsvToRGB d.hue 0.45 0.7
  (c.1 * 0.7, c.2.1 * 0.7, c.2.2 * 0.7)

/-- One iteration of the `addRandomSplats` loop: exactly one velocity
splat followed by one dye splat at the drawn point. -/
def applyRandomSplat (s : VState) (d : Draw) : VState :=
  { s with velocity := splatVelGrid s.velocity (d.x, d.y) SPLAT_RADIUS
                         (drawForce d),
           dye := splatDyeGrid s.dye (d.x, d.y) (SPLAT_RADIUS * 1.5)
                    (drawColor d) }

/-- `addRandomSplats(count)` with the random draws made explicit. -/
def addRandomSplatsV (s : VState) (ds : List Draw) : VState :=
  ds.foldl applyRandomSplat s

/-- One firing of the ambient `setInterval` callback
(`startAmbientSplats`, vortex_bg.js lines 602-607): guarded by
`window.fluidActive`, then `addRandomSplats(config.AMBIENT_SPLATS)`
with `AMBIENT_SPLATS = 1`. -/
def ambientTickV (s : VState) (d : Draw) : VState :=
  if s.active then addRandomSplatsV s [d] else s

/-- A quiescent pointer (initial `pointers[0]` of vortex_bg.js). -/
def pEx : Pointer :=
  { moved := false, down := false, x := 0.5, y := 0.5, dx := 0, dy := 0,
    color := (1, 0.3, 0.8) }

/-- A small concrete running state used by the witnesses. -/
def sRun : VState :=
  { velocity := zeroGrid2 2 2, dye := zeroGrid3 2 2,
    pressure := zeroGridS 2 2, divergence := zeroGridS 2 2,
    curl := zeroGridS 2 2, lastTime := 0, ribbonProgress := 0,
    pointer := pEx, canvasW := 2, canvasH := 2, active := true }

/-- The same state with the active flag cleared (Idle). -/
def sIdle : VState := { sRun with active := false }

/-- A state with non-trivial pressure content, for the resize
counterexample. -/
def sResize : VState := { sRun with pressure := ⟨2, 2, fun _ _ => 1⟩ }

end Vortex

/-- C4.  One Jacobi sweep writes, at every texel,
`p' = (L + R + T + B - divergence) / 4` on the decoded values (richest
variant; second conjunct: the same formula on raw values in the minimal
variants), where `L, R, T, B` are the previous sweep's edge-clamped
pressure samples; the loop performs exactly its counter's number of
sweeps — it is literally the `n`-fold iterate of the sweep, with no
convergence check or early exit — and the frame invokes it exactly
`PRESSURE_ITERATIONS` times, with the read/write swap realised by
feeding each sweep's output to the next. -/
theorem c4_pressure_jacobi_spec :
    (∀ (dv p : Grid ℝ) (x y : ℤ),
      decodeScalar ((pressureSweep dv p).data x y) =
        (decodeScalar (p.sample (x - 1) y) + decodeScalar (p.sample (x + 1) y) +
         decodeScalar (p.sample x (y + 1)) + decodeScalar (p.sample x (y - 1)) -
         decodeScalar (dv.sample x y)) * 0.25) ∧
    (∀ (dv p : Grid ℝ) (x y : ℤ),
      (FS.pressureSweep dv p).data x y =
        (p.sample (x - 1) y + p.sample (x + 1) y +
         p.sample x (y + 1) + p.sample x (y - 1) - dv.sample x y) * 0.25) ∧
    (∀ (n : ℕ) (dv p : Grid ℝ),
      pressureLoop n dv p = (fun q => pressureSweep dv q)^[n] p) ∧
    (∀ (s : VState) (dt : ℝ),
      (stepV s dt).pressure =
        pressureLoop PRESSURE_ITERATIONS ((stepV s dt).divergence) s.pressure) := by
  refine ⟨?_, ?_, pressureLoop_eq_iterate, stepV_pressure⟩
  · intro dv p x y
    simp only [pressureSweep, decodeScalar_encodeScalar]
    ring
  · intro dv p x y
    simp only [FS.pressureSweep]

/-- C5.  The pressure field is never cleared between frames: a Running
frame's new pressure is exactly `PRESSURE_ITERATIONS` Jacobi sweeps
(against the freshly written divergence) *starting from the previous
frame's final pressure* (first conjunct), the first of those sweeps
reading that carried pressure as its initial guess (second conjunct,
the loop unfolding); an Idle frame leaves pressure untouched (third
conjunct); ambient splats never touch pressure (fourth conjunct); and
only `resizeCanvas` resets the pressure storage, to the zero-fill of a
fresh texture (fifth conjunct). -/
theorem c5_pressure_warm_start :
    (∀ (s : VState) (now : ℝ), s.active = true →
      (updateV s now).pressure =
        pressureLoop PRESSURE_ITERATIONS ((updateV s now).divergence)
          s.pressure) ∧
    (∀ (n : ℕ) (dv p : Grid ℝ),
      pressureLoop (n + 1) dv p = pressureLoop n dv (pressureSweep dv p)) ∧
    (∀ (s : VState) (now : ℝ), s.active = false →
      (updateV s now).pressure = s.pressure) ∧
    (∀ (s : VState) (d : Draw), (ambientTickV s d).pressure = s.pressure) ∧
    (∀ (s : VState) (cw ch dpr : ℝ),
      (resizeCanvasV s cw ch dpr).pressure.data = fun _ _ => 0) := by
  refine ⟨?_, fun _ _ _ => rfl, ?_, ?_, fun _ _ _ _ => rfl⟩
  · intro s now h
    simp only [updateV, h, if_true]
    rw [stepV_pressure, emitRibbonV_pressure, pointerDrain_pressure]
  · intro s now h
    simp [updateV, h]
  · intro s d
    unfold ambientTickV
    split <;> rfl

/-- C5 (witness): the warm-start equation evaluated on a concrete
running state. -/
theorem c5_pressure_warm_start_witness :
    sRun.active = true ∧
    (updateV sRun 1).pressure =
      pressureLoop PRESSURE_ITERATIONS ((updateV sRun 1).divergence)
        sRun.pressure :=
  ⟨rfl, c5_pressure_warm_start.1 sRun 1 rfl⟩

/-- C6.  While Idle, any number of per-frame callback invocations
leaves the contents of every field — velocity, dye, pressure,
divergence and curl — unchanged (the callback returns the state itself
before touching anything), and the ambient-splat timer is likewise
guarded by the active flag, so no splat, advection, solve or any other
field mutation occurs until the state is switched back to Running. -/
theorem c6_idle_frame_no_op :
    (∀ (s : VState), s.active = false →
      ∀ ts : List ℝ, fieldsOf (ts.foldl updateV s) = fieldsOf s) ∧
    (∀ (s : VState) (d : Draw), s.active = false → ambientTickV s d = s) := by
  constructor
  · intro s h ts
    have hid : ∀ t : ℝ, updateV s t = s := by
      intro t; simp [updateV, h]
    induction ts with
    | nil => rfl
    | cons t ts ih => rw [List.foldl_cons, hid t]; exact ih
  · intro s d h
    simp [ambientTickV, h]

/-- C6 (witness): three idle invocations on a concrete state leave the
fields unchanged. -/
theorem c6_idle_frame_no_op_witness :
    sIdle.active = false ∧
    fieldsOf (([1, 2, 3] : List ℝ).foldl updateV sIdle) = fieldsOf sIdle :=
  ⟨rfl, c6_idle_frame_no_op.1 sIdle rfl [1, 2, 3]⟩

/-- C7 (counterexample).  The claim says the stored last-frame timestamp
still advances on every callback while Idle.  It does not: the idle
guard returns before `lastTime = now` executes.  Concretely, an idle
state with `lastTime = 0` invoked at `now = 5` still has
`lastTime = 0 ≠ 5` afterwards — so the dt measured at re-activation is
computed from the last *Running* frame and does span the idle period
(bounded only by the 0.033 s clamp in the richest variant). -/
theorem c7_idle_timer_counterexample :
    (updateV sIdle 5).lastTime = 0 ∧ ((0 : ℝ) ≠ 5) := by
  constructor
  · simp [updateV, sIdle, sRun]
  · norm_num

/-- C7 (amended).  While Idle the frame timer does *not* advance (the
callback returns before `lastTime` is written), so the first Running
frame after re-activation measures a dt spanning the whole idle period;
in the richest variant that dt is clamped to
`0.033 * (TIME_STEP / 0.016)` so no unbounded spike occurs, whereas the
minimal variants' `animate` dt is unclamped and grows without bound in
the idle span. -/
theorem c7_idle_timer_spec :
    (∀ (s : VState) (now : ℝ), s.active = false →
      (updateV s now).lastTime = s.lastTime) ∧
    (∀ now last : ℝ, vortexDt now last ≤ 0.033 * (TIME_STEP / 0.016)) ∧
    (∀ M : ℝ, M < FS.fluidSimDt (1000 * M + 1000) 0) := by
  refine ⟨?_, ?_, ?_⟩
  · intro s now h
    simp [updateV, h]
  · intro now last
    exact mul_le_mul_of_nonneg_right (min_le_left _ _)
      (by norm_num [TIME_STEP])
  · intro M
    simp only [FS.fluidSimDt]
    nlinarith [sq_nonneg M]

/-- C7 (witness): the idle-preservation conjunct on a concrete state. -/
theorem c7_idle_timer_spec_witness :
    sIdle.active = false ∧ (updateV sIdle 7).lastTime = sIdle.lastTime :=
  ⟨rfl, c7_idle_timer_spec.1 sIdle 7 rfl⟩

/-- C8 (counterexample).  The claim says a zero-sized resize allocates
no zero-area fields and defers the rebuild.  The code has no such
guard: resizing a state (whose pressure texel (0,0) stores 1) to
`clientHeight = 0` rebuilds everything anyway — the new velocity field
is allocated with height 0 (a zero-area field) and the pressure content
is reset to the fresh texture's zero fill instead of being kept for a
deferred rebuild. -/
theorem c8_resize_zero_counterexample :
    ((resizeCanvasV sResize 800 0 1).velocity.h = 0) ∧
    ((resizeCanvasV sResize 800 0 1).pressure.data 0 0 = 0) ∧
    (sResize.pressure.data 0 0 = 1) := by
  refine ⟨?_, rfl, rfl⟩
  simp [resizeCanvasV, zeroGrid2]

/-- C8 (amended).  The resize policy performs no zero-size check: every
resize event, zero-sized or not, rebuilds all fields from scratch
(discarding their contents for the fresh zero fill), and an event with
`clientHeight = 0` allocates the sim-resolution fields with a zero
height, i.e. zero-area fields, rather than deferring the rebuild. -/
theorem c8_resize_no_zero_guard :
    (∀ (s : VState) (cw ch dpr : ℝ),
      (resizeCanvasV s cw ch dpr).pressure.data = fun _ _ => 0) ∧
    (∀ (s : VState) (cw dpr : ℝ),
      (resizeCanvasV s cw 0 dpr).velocity.h = 0) := by
  refine ⟨fun _ _ _ _ => rfl, ?_⟩
  intro s cw dpr
  simp [resizeCanvasV, zeroGrid2]

namespace Vortex

/-! ### Frame traces

The order of GPU dispatches in one frame, as an explicit list of stage
labels.  `vortexFrameTrace` transcribes `update` + `step` + `render` of
vortex_bg.js; `fluidSimFrameTrace` transcribes `animate` + `step` +
`render` of fluid_sim.js / part_000. -/

inductive Stage
  | splatVelocity
  | splatDye
  | advectVelocity
  | advectDye
  | curlStage
  | vorticityStage
  | divergenceStage
  | pressureSweepStage
  | gradientSubtractStage
  | present
  deriving DecidableEq

/-- Every forcing event is one velocity splat followed by one dye splat
(`splat`, `emitRibbon`, `addRandomSplats` all call `splatVelocity` then
`splatDye`). -/
def splatPair : List Stage := [Stage.splatVelocity, Stage.splatDye]

/-- `n` pending forcing events, drained in order. -/
def pendingSplats : ℕ → List Stage
  | 0 => []
  | n + 1 => splatPair ++ pendingSplats n

/-- The dispatches of `step(dt)` in vortex_bg.js (lines 609-693), in
source order: advect velocity, advect dye, curl, vorticity, divergence,
the pressure loop, gradient subtraction. -/
def stepTrace (iters : ℕ) : List Stage :=
  [Stage.advectVelocity, Stage.advectDye, Stage.curlStage,
   Stage.vorticityStage, Stage.divergenceStage] ++
  List.replicate iters Stage.pressureSweepStage ++
  [Stage.gradientSubtractStage]

/-- One Running frame of the richest variant (`update`, vortex_bg.js
lines 703-721): ambient-timer splats due before this animation frame,
the pointer splat if `moved`, the ribbon splat (unconditional), then
`step(dt)`, then `render()`. -/
def vortexFrameTrace (ambient : ℕ) (moved : Bool) : List Stage :=
  pendingSplats ambient ++ (if moved then splatPair else []) ++ splatPair ++
  stepTrace PRESSURE_ITERATIONS ++ [Stage.present]

/-- The stage order asserted by the claim: all pending forcing splats,
then advection of velocity and of dye, then curl and vorticity
confinement, then divergence, then the fixed-budget pressure solve,
then gradient subtraction, then presentation. -/
def claimedFrameTrace (pending iters : ℕ) : List Stage :=
  pendingSplats pending ++
  [Stage.advectVelocity, Stage.advectDye, Stage.curlStage,
   Stage.vorticityStage, Stage.divergenceStage] ++
  List.replicate iters Stage.pressureSweepStage ++
  [Stage.gradientSubtractStage, Stage.present]

def FS_PRESSURE_ITERATIONS : ℕ := 20

/-- One Running frame of the minimal variants (`animate` + `step`,
fluid_sim.js lines 322-385 and 401-415): the pointer splat if pressed
and moved, then divergence, the 20-sweep pressure loop, gradient
subtraction, advection of velocity, advection of density, then
`render()`.  There is no curl or vorticity stage. -/
def fluidSimFrameTrace (movedDown : Bool) : List Stage :=
  (if movedDown then splatPair else []) ++ [Stage.divergenceStage] ++
  List.replicate FS_PRESSURE_ITERATIONS Stage.pressureSweepStage ++
  [Stage.gradientSubtractStage, Stage.advectVelocity, Stage.advectDye,
   Stage.present]

lemma pendingSplats_succ_right (n : ℕ) :
    pendingSplats (n + 1) = pendingSplats n ++ splatPair := by
  induction n with
  | zero => simp [pendingSplats]
  | succ n ih =>
      have h : splatPair ++ pendingSplats n = pendingSplats n ++ splatPair := ih
      show splatPair ++ pendingSplats (n + 1) = pendingSplats (n + 1) ++ splatPair
      rw [ih, ← List.append_assoc, h]

end Vortex

/-- C2 (counterexample).  The claim's fixed stage order, instantiated
for a minimal-variant frame with one pending pointer splat and the
20-sweep budget, does not match what the minimal variants execute:
they run divergence / pressure / gradient subtraction *before*
advection and have no curl or vorticity stage. -/
theorem c2_frame_order_counterexample :
    fluidSimFrameTrace true ≠ claimedFrameTrace 1 FS_PRESSURE_ITERATIONS := by
  decide

/-- C2 (amended).  In the richest variant the claimed order holds
exactly: a Running frame with `ambient` pending ambient splat events
and pointer-moved flag `moved` executes the pending splats (ambient,
pointer, ribbon — each one velocity splat plus one dye splat), then
advection of velocity and of dye, curl, vorticity confinement,
divergence, the 30-sweep pressure solve, gradient subtraction, and
presentation.  The minimal variants instead run their projection
(divergence, 20 pressure sweeps, gradient subtraction) before advecting
velocity and density, with no curl/vorticity stage. -/
theorem c2_frame_order_spec :
    (∀ (ambient : ℕ) (moved : Bool),
      vortexFrameTrace ambient moved =
        claimedFrameTrace (ambient + (if moved then 1 else 0) + 1)
          PRESSURE_ITERATIONS) ∧
    (∀ movedDown : Bool,
      fluidSimFrameTrace movedDown =
        (if movedDown then splatPair else []) ++ [Stage.divergenceStage] ++
        List.replicate FS_PRESSURE_ITERATIONS Stage.pressureSweepStage ++
        [Stage.gradientSubtractStage, Stage.advectVelocity, Stage.advectDye,
         Stage.present]) := by
  constructor
  · intro ambient moved
    cases moved <;>
      simp [vortexFrameTrace, claimedFrameTrace, stepTrace,
        pendingSplats_succ_right, splatPair, List.append_assoc]
  · intro movedDown
    rfl

namespace Vortex

/-- The state before `initFluidBackground` builds anything (the canvas
and fields do not exist yet; placeholder zero-size grids). -/
def blankVState : VState :=
  { velocity := zeroGrid2 0 0, dye := zeroGrid3 0 0, pressure := zeroGridS 0 0,
    divergence := zeroGridS 0 0, curl := zeroGridS 0 0, lastTime := 0,
    ribbonProgress := 0, pointer := pEx, canvasW := 0, canvasH := 0,
    active := false }

/-- `initFluidBackground` (vortex_bg.js lines 187-205) up to the first
animation frame: `resizeCanvas()` builds all fields fresh, then
`addRandomSplats(5)` runs (with draws `ds`) before `update` is ever
scheduled and before `startAmbientSplats()` arms the ambient timer. -/
def initFluid (cw ch dpr : ℝ) (ds : List Draw) : VState :=
  addRandomSplatsV (resizeCanvasV blankVState cw ch dpr) ds

@[simp] lemma splatVelGrid_w (g : Grid V2) (pt : V2) (r : ℝ) (f : V2) :
    (splatVelGrid g pt r f).w = g.w := rfl

@[simp] lemma splatVelGrid_h (g : Grid V2) (pt : V2) (r : ℝ) (f : V2) :
    (splatVelGrid g pt r f).h = g.h := rfl

lemma splatVelGrid_sample (g : Grid V2) (pt : V2) (r : ℝ) (f : V2) (x y : ℤ) :
    (splatVelGrid g pt r f).sample x y =
      encode2
        ((decode2 (g.sample (clampIdx g.w x) (clampIdx g.h y))).1 +
           f.1 * splatInfluence g.w g.h pt r (clampIdx g.w x) (clampIdx g.h y),
         (decode2 (g.sample (clampIdx g.w x) (clampIdx g.h y))).2 +
           f.2 * splatInfluence g.w g.h pt r (clampIdx g.w x) (clampIdx g.h y)) :=
  rfl

lemma splatDyeGrid_sample (g : Grid V3) (pt : V2) (r : ℝ) (c : V3) (x y : ℤ) :
    (splatDyeGrid g pt r c).sample x y =
      ((g.sample (clampIdx g.w x) (clampIdx g.h y)).1 +
         c.1 * splatInfluence g.w g.h pt r (clampIdx g.w x) (clampIdx g.h y),
       (g.sample (clampIdx g.w x) (clampIdx g.h y)).2.1 +
         c.2.1 * splatInfluence g.w g.h pt r (clampIdx g.w x) (clampIdx g.h y),
       (g.sample (clampIdx g.w x) (clampIdx g.h y)).2.2 +
         c.2.2 * splatInfluence g.w g.h pt r (clampIdx g.w x) (clampIdx g.h y)) :=
  rfl

lemma splatInfluence_pos (w h : ℕ) (pt : V2) (r : ℝ) (x y : ℤ) :
    0 < splatInfluence w h pt r x y :=
  Real.exp_pos _

/-- Every component of every sampled dye texel is nonnegative. -/
def dyeNonneg (g : Grid V3) : Prop :=
  ∀ x y : ℤ, 0 ≤ (g.sample x y).1 ∧ 0 ≤ (g.sample x y).2.1 ∧
    0 ≤ (g.sample x y).2.2

/-- Every component of every sampled dye texel is strictly positive. -/
def dyePos (g : Grid V3) : Prop :=
  ∀ x y : ℤ, 0 < (g.sample x y).1 ∧ 0 < (g.sample x y).2.1 ∧
    0 < (g.sample x y).2.2

lemma dyePos_nonneg {g : Grid V3} (h : dyePos g) : dyeNonneg g :=
  fun x y => ⟨le_of_lt (h x y).1, le_of_lt (h x y).2.1, le_of_lt (h x y).2.2⟩

lemma hsvF_lower (hv n : ℝ) : 0.385 ≤ hsvF hv 0.45 0.7 n := by
  unfold hsvF
  have h1 : max (min (hsvK n hv) (min (4 - hsvK n hv) 1)) 0 ≤ 1 :=
    max_le (le_trans (min_le_right _ _) (min_le_right _ _)) zero_le_one
  have h2 : (0 : ℝ) ≤ max (min (hsvK n hv) (min (4 - hsvK n hv) 1)) 0 :=
    le_max_right _ _
  nlinarith

lemma drawColor_pos (d : Draw) :
    0 < (drawColor d).1 ∧ 0 < (drawColor d).2.1 ∧ 0 < (drawColor d).2.2 := by
  unfold drawColor hsvToRGB
  refine ⟨?_, ?_, ?_⟩ <;>
    nlinarith [hsvF_lower d.hue 5, hsvF_lower d.hue 3, hsvF_lower d.hue 1]

lemma splatDye_pos (g : Grid V3) (pt : V2) (r : ℝ) (c : V3)
    (hg : dyeNonneg g) (hc : 0 < c.1 ∧ 0 < c.2.1 ∧ 0 < c.2.2) :
    dyePos (splatDyeGrid g pt r c) := by
  intro x y
  rw [splatDyeGrid_sample]
  obtain ⟨h1, h2, h3⟩ := hg (clampIdx g.w x) (clampIdx g.h y)
  have hinf := splatInfluence_pos g.w g.h pt r (clampIdx g.w x) (clampIdx g.h y)
  exact ⟨add_pos_of_nonneg_of_pos h1 (mul_pos hc.1 hinf),
         add_pos_of_nonneg_of_pos h2 (mul_pos hc.2.1 hinf),
         add_pos_of_nonneg_of_pos h3 (mul_pos hc.2.2 hinf)⟩

lemma applyRandomSplat_dye (s : VState) (d : Draw) :
    (applyRandomSplat s d).dye =
      splatDyeGrid s.dye (d.x, d.y) (SPLAT_RADIUS * 1.5) (drawColor d) := rfl

lemma addRandomSplats_dyePos :
    ∀ (ds : List Draw) (s : VState),
      dyeNonneg s.dye → ds ≠ [] → dyePos (addRandomSplatsV s ds).dye := by
  intro ds
  induction ds with
  | nil => intro s _ hne; exact absurd rfl hne
  | cons d ds ih =>
      intro s hnn _
      have hpos : dyePos (applyRandomSplat s d).dye := by
        rw [applyRandomSplat_dye]
        exact splatDye_pos _ _ _ _ hnn (drawColor_pos d)
      cases ds with
      | nil => exact hpos
      | cons e es =>
          exact ih (applyRandomSplat s d) (dyePos_nonneg hpos) (by simp)

/-- Base case of the cancellation argument: five velocity splats at the
same point and radius, applied to a zero-filled velocity texture, whose
forces sum to zero componentwise, leave the observable texture content
identically zero. -/
lemma fiveSplat_cancel (g : Grid V2) (pt : V2) (r : ℝ)
    (F1 F2 F3 F4 F5 : V2)
    (hbase : ∀ x y : ℤ, g.data x y = (0, 0))
    (hx : F1.1 + F2.1 + F3.1 + F4.1 + F5.1 = 0)
    (hy : F1.2 + F2.2 + F3.2 + F4.2 + F5.2 = 0) :
    Grid.sampled
      (splatVelGrid (splatVelGrid (splatVelGrid (splatVelGrid
        (splatVelGrid g pt r F1) pt r F2) pt r F3) pt r F4) pt r F5) =
      fun _ _ => ((0 : ℝ), (0 : ℝ)) := by
  funext x y
  have hbs : ∀ x y : ℤ, g.sample x y = (0, 0) := fun x y => hbase _ _
  simp only [Grid.sampled, splatVelGrid_sample, splatVelGrid_w, splatVelGrid_h,
    clampIdx_clampIdx, decode2_encode2, hbs]
  set I := splatInfluence g.w g.h pt r (clampIdx g.w x) (clampIdx g.h y) with hI
  simp only [decode2, encode2, Prod.ext_iff]
  constructor
  · linear_combination (I * 0.5) * hx
  · linear_combination (I * 0.5) * hy

/-- First adversarial draw: point (0.5, 0.5), angle 0, speed 12 —
force (12, 0). -/
def bd1 : Draw := ⟨1/2, 1/2, 0, 0, 0⟩

/-- Second adversarial draw: point (0.5, 0.5), angle π, speed 24 —
force (-24, 0). -/
def bd2 : Draw := ⟨1/2, 1/2, 0, 1/2, 2/5⟩

/-- Third adversarial draw: identical to the first — force (12, 0). -/
def bd3 : Draw := ⟨1/2, 1/2, 0, 0, 0⟩

/-- Fourth adversarial draw: angle π/2, speed 12 — force (0, 12). -/
def bd4 : Draw := ⟨1/2, 1/2, 0, 1/4, 0⟩

/-- Fifth adversarial draw: angle 3π/2, speed 12 — force (0, -12). -/
def bd5 : Draw := ⟨1/2, 1/2, 0, 3/4, 0⟩

lemma drawForce_bd1 : drawForce bd1 = (12, 0) := by
  simp [drawForce, bd1]

lemma drawForce_bd2 : drawForce bd2 = (-24, 0) := by
  have ha : (1/2 : ℝ) * Real.pi * 2 = Real.pi := by ring
  simp only [drawForce, bd2, ha, Real.cos_pi, Real.sin_pi]
  norm_num

lemma drawForce_bd3 : drawForce bd3 = (12, 0) := by
  simp [drawForce, bd3]

lemma drawForce_bd4 : drawForce bd4 = (0, 12) := by
  have ha : (1/4 : ℝ) * Real.pi * 2 = Real.pi / 2 := by ring
  simp only [drawForce, bd4, ha, Real.cos_pi_div_two, Real.sin_pi_div_two]
  norm_num

lemma drawForce_bd5 : drawForce bd5 = (0, -12) := by
  have ha : (3/4 : ℝ) * Real.pi * 2 = Real.pi + Real.pi / 2 := by ring
  simp only [drawForce, bd5, ha, Real.cos_add, Real.sin_add, Real.cos_pi,
    Real.sin_pi, Real.cos_pi_div_two, Real.sin_pi_div_two]
  norm_num

end Vortex

/-- C10 (counterexample).  The claim infers that after the five init
splats "the velocity and dye fields are not zero".  That does not hold
for every possible random draw: with the five explicit draws below —
all at point (0.5, 0.5) with forces (12,0), (-24,0), (12,0), (0,12),
(0,-12), which sum to zero — the decode/splat/encode chain cancels
exactly and the velocity texture's observable content right after
`addRandomSplats(5)` is identically zero, bit-identical to the fresh
zero-filled texture `resizeCanvas` just allocated. -/
theorem c10_init_velocity_counterexample :
    Grid.sampled ((initFluid 240 240 1 [bd1, bd2, bd3, bd4, bd5]).velocity) =
      fun _ _ => ((0 : ℝ), (0 : ℝ)) := by
  refine fiveSplat_cancel ((resizeCanvasV blankVState 240 240 1).velocity)
    (1/2, 1/2) SPLAT_RADIUS (drawForce bd1) (drawForce bd2) (drawForce bd3)
    (drawForce bd4) (drawForce bd5) (fun _ _ => rfl) ?_ ?_ <;>
    · simp only [drawForce_bd1, drawForce_bd2, drawForce_bd3, drawForce_bd4,
        drawForce_bd5]
      norm_num

/-- C10 (amended).  At initialization, before any pointer or ambient
forcing event, the richest variant injects exactly 5 random splats:
each draw performs one velocity splat followed by one dye splat at the
drawn point with the drawn force and colour (first two conjuncts), the
splat falloff is strictly positive at every texel (third conjunct), and
the dye field is strictly positive — hence nonzero — everywhere at the
start of the first simulated frame (fourth conjunct).  The velocity
field, however, is only generically nonzero: draws whose forces cancel
exactly can leave its storage identical to the fresh zero fill. -/
theorem c10_init_splats_spec :
    (∀ (s : VState) (d : Draw),
      applyRandomSplat s d =
        { s with velocity := splatVelGrid s.velocity (d.x, d.y) SPLAT_RADIUS
                               (drawForce d),
                 dye := splatDyeGrid s.dye (d.x, d.y) (SPLAT_RADIUS * 1.5)
                          (drawColor d) }) ∧
    (∀ (cw ch dpr : ℝ) (d1 d2 d3 d4 d5 : Draw),
      initFluid cw ch dpr [d1, d2, d3, d4, d5] =
        applyRandomSplat (applyRandomSplat (applyRandomSplat (applyRandomSplat
          (applyRandomSplat (resizeCanvasV blankVState cw ch dpr) d1) d2) d3)
          d4) d5) ∧
    (∀ (w h : ℕ) (pt : V2) (r : ℝ) (x y : ℤ),
      0 < splatInfluence w h pt r x y) ∧
    (∀ (cw ch dpr : ℝ) (d1 d2 d3 d4 d5 : Draw),
      dyePos (initFluid cw ch dpr [d1, d2, d3, d4, d5]).dye) := by
  refine ⟨fun _ _ => rfl, fun _ _ _ _ _ _ _ _ => rfl, splatInfluence_pos, ?_⟩
  intro cw ch dpr d1 d2 d3 d4 d5
  apply addRandomSplats_dyePos
  · intro x y
    norm_num [resizeCanvasV, zeroGrid3, Grid.sample]
  · simp
